import Mathlib

/-!
Verification of the authentication/authorization subsystem of the
Microsoft-Fabric workload development sample (Python backend).

The definitions below are a shallow embedding of the Python sources:
  * src/Backend/python/src/models/authentication_models.py
  * src/Backend/python/src/services/authentication.py
  * src/Backend/python/src/services/open_id_connect_configuration.py
  * src/Backend/python/src/services/authorization.py
  * src/Backend/python/src/services/http_client.py
  * src/Backend/python/src/exceptions/exceptions.py

Conventions of the embedding:
  * Python exceptions become `Except` errors (`PyErr` mirrors the exception
    classes that matter here; `str(e)` of a `WorkloadExceptionBase` is its
    formatted message, per base_exception.py line 35).
  * Dynamic claim values become `ClaimValue` (string, integer, list of
    strings, or null), with Python truthiness `pyTruthy` and `str()`
    rendering `pyStr`.
  * The jose JWT library and MSAL are modelled at their observable
    interface: a parsed token (`JoseToken`) carries its header fields, its
    claim set and a signature-verification predicate over signing keys, and
    `jwtDecode` replays jose 3.x `jwt.decode` (signature first, then the
    iat format check, nbf, exp with the configured 60s leeway, aud, iss —
    the order of `jose.jwt._validate_claims`).
  * Network and process environment (parsed tokens for token strings, the
    OIDC fetch outcome, the clock) is passed in as an `AuthEnv` record.
-/

set_option autoImplicit false

namespace FabricAuth

/-- A dynamic JWT claim value (Python `Any` restricted to the shapes the
code manipulates: strings, integers, lists of strings, None). -/
inductive ClaimValue : Type where
  | str (s : String)
  | num (n : Int)
  | list (l : List String)
  | null
  deriving DecidableEq

/-- Python truthiness of a claim value. -/
def pyTruthy : ClaimValue → Bool
  | .str s => s ≠ ""
  | .num n => n ≠ 0
  | .list l => l ≠ []
  | .null => false

/-- Python `str()` of a claim value (the list rendering is approximate; it
only appears inside log-style messages, never in a successful comparison). -/
def pyStr : ClaimValue → String
  | .str s => s
  | .num n => toString n
  | .list l => toString l
  | .null => "None"

/-- models/authentication_models.py `Claim`: one identity claim. -/
structure Claim : Type where
  type : String
  value : ClaimValue
  deriving DecidableEq

/-- models/authentication_models.py `TokenVersion`. -/
inductive TokenVersion : Type where
  | V1
  | V2
  deriving DecidableEq

/-- models/authentication_models.py `AuthorizationContext`. -/
structure AuthorizationContext : Type where
  original_subject_token : Option String := none
  tenant_object_id : Option String := none
  claims : List Claim := []
  deriving DecidableEq

/-- `AuthorizationContext.object_id`: the first `oid` claim, if any. -/
def AuthorizationContext.object_id (ctx : AuthorizationContext) : Option ClaimValue :=
  match ctx.claims.find? (fun c => c.type = "oid") with
  | some c => some c.value
  | none => none

/-- `AuthorizationContext.has_subject_context`. -/
def AuthorizationContext.has_subject_context (ctx : AuthorizationContext) : Bool :=
  match ctx.original_subject_token with
  | some s => s.length > 0
  | none => false

/-- The Python exceptions this subsystem raises (exceptions/exceptions.py).
The payload of each constructor is the exception message (for
`WorkloadExceptionBase` subclasses, `str(e)` is exactly that message).
`authUIRequired` additionally carries the claims challenge and the scopes
to consent that `AuthenticationUIRequiredException` accumulates.
`httpStatusError` stands for `httpx.HTTPStatusError`; `nameError` for the
`NameError` escaping the `JWTClaimsError` handler of
authentication.py lines 439-447 when `error_message` was never assigned;
`generic` for any other Python exception, carrying `str(e)`. -/
inductive PyErr : Type where
  | authException (msg : String)
  | authUIRequired (msg : String) (claimsChallenge : Option String)
      (scopesToConsent : Option (List String))
  | unauthorized (msg : String)
  | tooManyRequests (msg : String)
  | internalError (msg : String)
  | httpStatusError (status : Nat)
  | nameError
  | generic (msg : String)
  deriving DecidableEq

/-- Python `str(e)` for the modelled exceptions (base_exception.py stores the
formatted message as the single `Exception` argument, so `str(e)` returns
it; the `httpx.HTTPStatusError` rendering is abridged to its status). -/
def pyStrOfErr : PyErr → String
  | .authException m => m
  | .authUIRequired m _ _ => m
  | .unauthorized m => m
  | .tooManyRequests m => m
  | .internalError m => m
  | .httpStatusError s => "HTTP status error " ++ toString s
  | .nameError => "name \x27error_message\x27 is not defined"
  | .generic m => m

/-- Truthiness of Python `Optional[str]` (None and the empty string are
falsy). -/
def optFalsy : Option String → Bool
  | none => true
  | some s => s = ""

/-! ### constants (constants/environment_constants.py, workload_scopes.py) -/

def AAD_INSTANCE_URL : String := "https://login.microsoftonline.com"

def FABRIC_BACKEND_APP_ID : String := "00000009-0000-0000-c000-000000000000"

def FABRIC_CLIENT_FOR_WORKLOADS_APP_ID : String := "d2450708-699c-41e3-8077-b0c8341509aa"

def FABRIC_WORKLOAD_CONTROL : String := "FabricWorkloadControl"

/-! ### DualTokenCodec: `SubjectAndAppToken` (authentication_models.py 41-76)

`parse` implements the two anchored regular expressions
`HEADER_PATTERN` and `HEADER_PATTERN_EMPTY_SUBJECT`.  Both have the shape
`SubjectAndAppToken1.0 subjectToken="<G1>", appToken="<G2>"` where a group
matches `eyJ[\w\-\._]+` (or is empty, for the empty-subject pattern).  The
character class contains no quote, so against either pattern the groups are
exactly the maximal quote-free runs after each opening quote: the
decomposition below is the unique way a string can match, and trying the
non-empty-subject pattern first (as the source does) cannot change the
result because the two patterns are disjoint. -/

structure SubjectAndAppToken : Type where
  subject_token : Option String := none
  app_token : String
  deriving DecidableEq

/-- One character of the class `[\w\-\._]` (`\w` taken as alphanumeric or
underscore). -/
def jwtChar (c : Char) : Bool :=
  c.isAlphanum || c = '_' || c = '-' || c = '.'

/-- `eyJ[\w\-\._]+` as a predicate on the character list of a candidate
token: the literal prefix `eyJ` followed by at least one class character. -/
def isJwtToken : List Char → Bool
  | c1 :: c2 :: c3 :: rest =>
    c1 == 'e' && c2 == 'y' && c3 == 'J' && !rest.isEmpty && rest.all jwtChar
  | _ => false

/-- Strip an expected literal run of characters, or fail. -/
def stripLit : List Char → List Char → Option (List Char)
  | [], l => some l
  | _ :: _, [] => none
  | p :: ps, c :: cs => if p = c then stripLit ps cs else none

/-- The literal before the subject group. -/
def headerPre : List Char := ("SubjectAndAppToken1.0 subjectToken=\"").data

/-- The literal between the two groups. -/
def headerMid : List Char := ("\", appToken=\"").data

/-- Match the anchored header grammar, returning (subject group or none,
app group). -/
def parseHeaderChars (l : List Char) : Option (Option String × String) :=
  match stripLit headerPre l with
  | none => none
  | some r1 =>
    match stripLit headerMid (r1.dropWhile (fun c => c != '"')) with
    | none => none
    | some r3 =>
      let s := r1.takeWhile (fun c => c != '"')
      let a := r3.takeWhile (fun c => c != '"')
      match r3.dropWhile (fun c => c != '"') with
      | ['"'] =>
        if isJwtToken a then
          if isJwtToken s then some (some (String.mk s), String.mk a)
          else if s.isEmpty then some (none, String.mk a)
          else none
        else none
      | _ => none

/-- `SubjectAndAppToken.parse` (authentication_models.py 48-68).  The error
string is the `AuthenticationException` message. -/
def SubjectAndAppToken.parse (auth_header_value : String) :
    Except String SubjectAndAppToken :=
  if auth_header_value = "" then
    .error "Invalid Authorization header"
  else
    match parseHeaderChars auth_header_value.data with
    | some (s, a) => .ok { subject_token := s, app_token := a }
    | none => .error "Invalid SubjectAndAppToken header format"

/-- `SubjectAndAppToken.generate_authorization_header_value`
(authentication_models.py 70-75): None renders as an empty subject. -/
def SubjectAndAppToken.generate_authorization_header_value
    (subject_token : Option String) (app_token : String) : String :=
  "SubjectAndAppToken1.0 subjectToken=\"" ++ (subject_token.getD "") ++
    "\", appToken=\"" ++ app_token ++ "\""

/-! ### Claim-inspection helpers (authentication.py 475-546)

Each `_validate_*` method raises `AuthenticationException(msg)` on failure;
here they return `Except String α` carrying that message, and the callers
wrap the message in the right `PyErr` constructor. -/

/-- The `for claim in claims` lookup shared by the validators: the first
claim with the requested type. -/
def lookupClaim (claims : List Claim) (claim_name : String) : Option ClaimValue :=
  match claims with
  | [] => none
  | c :: rest => if c.type = claim_name then some c.value else lookupClaim rest claim_name

/-- `_validate_claim_exists` (lines 487-494). -/
def validate_claim_exists (claims : List Claim) (claim_name : String)
    (error_message : String) : Except String ClaimValue :=
  match lookupClaim claims claim_name with
  | some v => .ok v
  | none => .error ("Missing claim " ++ claim_name ++ ": " ++ error_message)

/-- `_validate_claim_value` (lines 475-485): the expected value is optional
(`None` skips the comparison), and the comparison is `str(claim_value) !=
expected_value`. -/
def validate_claim_value (claims : List Claim) (claim_name : String)
    (expected_value : Option String) (error_message : String) :
    Except String ClaimValue := do
  let claim_value ← validate_claim_exists claims claim_name
    ("Missing required claim: " ++ claim_name)
  match expected_value with
  | none => pure claim_value
  | some expected =>
    if pyStr claim_value ≠ expected then .error error_message
    else pure claim_value

/-- `_validate_claim_one_of_values` (lines 301-314): Python `in` over a list
of strings, so a non-string claim value never matches and the returned
value is one of the expected strings. -/
def validate_claim_one_of_values (claims : List Claim) (claim_name : String)
    (expected_values : List String) (error_message : String) :
    Except String String := do
  let claim_value ← validate_claim_exists claims claim_name
    ("Missing required claim: " ++ claim_name)
  match claim_value with
  | .str s => if s ∈ expected_values then pure s else .error error_message
  | _ => .error error_message

/-- `_validate_no_claim` (lines 496-501). -/
def validate_no_claim (claims : List Claim) (claim_name : String) :
    Except String Unit :=
  match lookupClaim claims claim_name with
  | some _ => .error "Unexpected token format"
  | none => .ok ()

/-- `_validate_app_only` (lines 503-511): the app-only vs delegated shape
check. -/
def validate_app_only (claims : List Claim) (is_app_only : Bool) :
    Except String Unit := do
  if is_app_only then
    let _ ← validate_claim_value claims "idtyp" (some "app") "expecting an app-only token"
    let _ ← validate_claim_exists claims "oid" "app-only tokens should have oid claim in them"
    validate_no_claim claims "scp"
  else
    let _ ← validate_no_claim claims "idtyp"
    let _ ← validate_claim_exists claims "scp" "delegated tokens should have this claim"
    pure ()

/-- Python `str.split()` without arguments: split on whitespace runs,
dropping empty pieces (so `.strip()` of each piece is the identity). -/
def pySplitWhitespace (s : String) : List String :=
  (s.split (fun c => c.isWhitespace)).filter (fun p => p ≠ "")

/-- The scopes one `scp` claim value contributes in
`_extract_scopes_from_claims` (lines 518-522): a falsy value becomes the
empty string, a string is whitespace-split, a non-string contributes
nothing. -/
def scpScopesOfValue : ClaimValue → List String
  | .str s => pySplitWhitespace s
  | _ => []

/-- The scopes one `roles` claim value contributes (lines 524-530): a falsy
value becomes `[]`, a list is appended wholesale, a string is appended as
one scope, any other truthy value contributes nothing. -/
def rolesScopesOfValue : ClaimValue → List String
  | .list l => l
  | .str s => if s = "" then [] else [s]
  | _ => []

/-- The `scp` pass of `_extract_scopes_from_claims`. -/
def scpScopes (claims : List Claim) : List String :=
  claims.flatMap (fun c => if c.type = "scp" then scpScopesOfValue c.value else [])

/-- The `roles` pass of `_extract_scopes_from_claims`. -/
def rolesScopes (claims : List Claim) : List String :=
  claims.flatMap (fun c => if c.type = "roles" then rolesScopesOfValue c.value else [])

/-- `_extract_scopes_from_claims` (lines 513-532): all `scp` contributions
followed by all `roles` contributions. -/
def extract_scopes_from_claims (claims : List Claim) : List String :=
  scpScopes claims ++ rolesScopes claims

/-- `_validate_any_scope` (lines 534-546). -/
def validate_any_scope (claims : List Claim) (allowed_scopes : List String) :
    Except String Unit :=
  let token_scopes := extract_scopes_from_claims claims
  if allowed_scopes.any (fun scope => token_scopes.contains scope) then .ok ()
  else .error "Workload\x27s Entra ID application is missing required scopes"

/-! ### OidcConfigCache (open_id_connect_configuration.py)

`get_configuration_async` is an async method on shared state; here it is a
pure state transformer.  The sequential model is the per-call interleaving
the event loop provides: the method re-checks the cache under its lock with
the same `current_time` captured at entry, so the double check collapses to
one in any single call.  The two upstream GETs (discovery document then
JWKS) are summarised by one `FetchOutcome`: a transport or decode failure
of either is `err`, a successful pair is `ok` with the extracted `issuer`,
`jwks_uri` and `keys` fields (each `get`-accessed, hence optional /
defaulted). -/

/-- A JWKS entry as the validator reads it: a dict whose `kid` is accessed
with `.get` (absent gives Python None). -/
structure SigningKey : Type where
  kid : Option String
  deriving DecidableEq

/-- `OpenIdConnectConfiguration` (lines 11-21): `issuer` may be absent from
the discovery document (`config_data.get("issuer")`), `keys` defaults to
`[]`. -/
structure OpenIdConnectConfiguration : Type where
  issuer_configuration : Option String
  signing_keys : List SigningKey
  deriving DecidableEq

/-- The mutable fields of `OpenIdConnectConfigurationManager`. -/
structure OidcState : Type where
  configuration : Option OpenIdConnectConfiguration := none
  last_updated : Int := 0
  deriving DecidableEq

/-- The outcome of the two upstream GETs of one refresh attempt. -/
inductive FetchOutcome : Type where
  | ok (issuer : Option String) (jwks_uri : Option String) (keys : List SigningKey)
  | err (msg : String)
  deriving DecidableEq

/-- The refresh attempt fails when a GET fails or when `jwks_uri` is absent
(the `ValueError` of line 67, caught by the same handler). -/
def fetchFails : FetchOutcome → Bool
  | .ok _ none _ => true
  | .ok _ (some _) _ => false
  | .err _ => true

/-- `get_configuration_async` (lines 37-89) as a state transformer: the
result and the updated manager state, or the propagated fetch error. -/
def get_configuration_async (st : OidcState) (current_time : Int)
    (cache_duration_seconds : Int) (fetch : FetchOutcome) :
    Except String (OpenIdConnectConfiguration × OidcState) :=
  match st.configuration with
  | some cached =>
    if current_time - st.last_updated < cache_duration_seconds then
      .ok (cached, st)  -- cache hit (line 44 / the re-check of line 50)
    else
      match fetch with
      | .ok issuer (some _) keys =>
        let cfg : OpenIdConnectConfiguration :=
          { issuer_configuration := issuer, signing_keys := keys }
        .ok (cfg, { configuration := some cfg, last_updated := current_time })
      | .ok _ none _ => .ok (cached, st)  -- line 88: serve the stale cache
      | .err _ => .ok (cached, st)
  | none =>
    match fetch with
    | .ok issuer (some _) keys =>
      let cfg : OpenIdConnectConfiguration :=
        { issuer_configuration := issuer, signing_keys := keys }
      .ok (cfg, { configuration := some cfg, last_updated := current_time })
    | .ok _ none _ => .error "JWKS URI not found in OpenID configuration"
    | .err m => .error m  -- line 87: only raise without a cached value

/-! ### TokenValidator: the jose layer and `_validate_aad_token_common`

A `JoseToken` is what `jwt.get_unverified_header` / `get_unverified_claims`
expose of a well-formed compact JWT, together with the ground truth of
signature verification (`sigValidFor k` says whether `jws.verify` accepts
the token under key `k`).  `jwtDecode` replays python-jose `jwt.decode`
with the options of authentication.py lines 409-424: signature first, then
`_validate_claims` in jose order — iat (format only), nbf, exp (60s
leeway, `ExpiredSignatureError`), aud (absent `aud` passes: the raise in
jose `_validate_aud` is commented out), iss.  `nbf`/`sub`/`jti`/`at_hash`
options beyond those used here are defaults. -/

structure JoseToken : Type where
  kid : Option String
  alg : Option String
  claims : List Claim
  sigValidFor : SigningKey → Bool

/-- jose errors distinguished by the `except` clauses of
authentication.py lines 436-450. -/
inductive JoseError : Type where
  | expiredSignature
  | claimsError (msg : String)
  | jwtError (msg : String)
  deriving DecidableEq

/-- Python `int(value)` as jose applies it to `iat`/`nbf`/`exp` claims:
integers pass through and numeric strings convert. -/
def claimInt : ClaimValue → Option Int
  | .num n => some n
  | .str s => s.toInt?
  | _ => none

/-- jose `_validate_iat`: a present `iat` must be integer-convertible; no
time comparison is made. -/
def joseValidateIat (claims : List Claim) : Except JoseError Unit :=
  match lookupClaim claims "iat" with
  | some v =>
    if (claimInt v).isNone then
      .error (.claimsError "Issued At claim (iat) must be an integer.")
    else .ok ()
  | none => .ok ()

/-- jose `_validate_nbf` with leeway 60. -/
def joseValidateNbf (claims : List Claim) (now : Int) : Except JoseError Unit :=
  match lookupClaim claims "nbf" with
  | some v =>
    match claimInt v with
    | some nbf =>
      if now + 60 < nbf then .error (.claimsError "The token is not yet valid (nbf)")
      else .ok ()
    | none => .error (.claimsError "Not Before claim (nbf) must be an integer.")
  | none => .ok ()

/-- jose `_validate_exp` with leeway 60: `exp < now - leeway` raises
`ExpiredSignatureError`. -/
def joseValidateExp (claims : List Claim) (now : Int) : Except JoseError Unit :=
  match lookupClaim claims "exp" with
  | some v =>
    match claimInt v with
    | some exp => if exp < now - 60 then .error .expiredSignature else .ok ()
    | none => .error (.claimsError "Expiration Time claim (exp) must be an integer.")
  | none => .ok ()

/-- jose `_validate_aud`: a missing `aud` claim passes (the raise in the
library is commented out); a string must equal the expected audience, a
list must contain it. -/
def joseValidateAud (claims : List Claim) (audience : String) : Except JoseError Unit :=
  match lookupClaim claims "aud" with
  | some (.str aud) =>
    if aud ≠ audience then .error (.claimsError "Invalid audience") else .ok ()
  | some (.list auds) =>
    if !auds.contains audience then .error (.claimsError "Invalid audience") else .ok ()
  | some _ => .error (.claimsError "Invalid claim format in token")
  | none => .ok ()

/-- jose `_validate_iss`: the `iss` claim must equal the expected issuer
(a missing or non-string claim is not the expected string). -/
def joseValidateIss (claims : List Claim) (issuer : String) : Except JoseError Unit :=
  match lookupClaim claims "iss" with
  | some (.str iss) =>
    if iss ≠ issuer then .error (.claimsError "Invalid issuer") else .ok ()
  | some _ => .error (.claimsError "Invalid issuer")
  | none => .error (.claimsError "Invalid issuer")

/-- jose `jwt.decode` under the options of lines 415-423 (all
verifications on, leeway 60): signature first, then `_validate_claims` in
library order (iat, nbf, exp, aud, iss).  On success the payload is the
token's own claim set. -/
def jwtDecode (tok : JoseToken) (key : SigningKey) (audience : String)
    (issuer : String) (now : Int) : Except JoseError (List Claim) :=
  if !tok.sigValidFor key then .error (.jwtError "Signature verification failed.")
  else
    joseValidateIat tok.claims >>= fun _ =>
    joseValidateNbf tok.claims now >>= fun _ =>
    joseValidateExp tok.claims now >>= fun _ =>
    joseValidateAud tok.claims audience >>= fun _ =>
    joseValidateIss tok.claims issuer >>= fun _ =>
    .ok tok.claims

/-- The service configuration read in `AuthenticationService.__init__`
(authentication.py lines 24-28). -/
structure Config : Type where
  publisher_tenant_id : String
  audience : String
  client_id : String
  client_secret : String
  deriving DecidableEq

/-- The request-independent environment of a validation call: how token
strings decode (jose raises `JWTError` on malformed input, carried as the
`.error` message), the OIDC manager outcome for this call, and the clock. -/
structure AuthEnv : Type where
  parseJwt : String → Except String JoseToken
  oidc : Except String OpenIdConnectConfiguration
  now : Int

/-- Errors arising inside the `try` of `_validate_aad_token_common`
(lines 371-434) before the `except` clauses rewrap them. -/
inductive VErr : Type where
  | jose (e : JoseError)
  | authExc (msg : String)
  | generic (msg : String)
  deriving DecidableEq

/-- `_get_token_version` (lines 351-359), with the message of its in-`try`
use. -/
def get_token_version (claims : List Claim) : Except String TokenVersion := do
  let version ← validate_claim_exists claims "ver" "access tokens should have version claim"
  if version = .str "1.0" then pure .V1
  else if version = .str "2.0" then pure .V2
  else .error ("Unsupported token version: " ++ pyStr version)

/-- `get_expected_issuer` (lines 335-349).  For a v1 token the issuer
template is `str.format`-ed with `tenantid=tenant_id`: modelled as textual
substitution of the placeholder (the embedding covers templates whose only
placeholder is `\x7btenantid\x7d`; an absent template — discovery document
without `issuer` — is Python None, whose `.format` raises
`AttributeError`). -/
def get_expected_issuer (oidc_config : OpenIdConnectConfiguration)
    (token_version : TokenVersion) (tenant_id : String) : Except VErr String :=
  match token_version with
  | .V1 =>
    match oidc_config.issuer_configuration with
    | some template => .ok (template.replace "\x7btenantid\x7d" tenant_id)
    | none => .error (.generic "\x27NoneType\x27 object has no attribute \x27format\x27")
  | .V2 => .ok (AAD_INSTANCE_URL ++ "/" ++ tenant_id ++ "/v2.0")

/-- `_get_excpected_audience` (lines 361-363, name as in the source). -/
def get_excpected_audience (cfg : Config) (token_version : TokenVersion) : String :=
  if token_version = .V1 then cfg.audience else cfg.client_id

/-- The first key of `signing_keys` whose `kid` equals the header `kid`
(lines 390-394; Python `None == None` holds, so two absent kids match). -/
def findSigningKey : List SigningKey → Option String → Option SigningKey
  | [], _ => none
  | k :: rest, kid => if k.kid = kid then some k else findSigningKey rest kid

/-- Lines 372-405 of `_validate_aad_token_common`: everything before
`jwt.decode`, yielding the token version, the matched signing key and the
expected audience and issuer. -/
def validateTokenPre (cfg : Config) (env : AuthEnv) (tok : JoseToken) :
    Except VErr (TokenVersion × SigningKey × String × String) := do
  let tid ← (validate_claim_exists tok.claims "tid"
    "access tokens should have \x27tid\x27 claim").mapError VErr.authExc
  if !pyTruthy tid then
    throw (.authExc "Token is missing \x27tid\x27 claim.")
  let tenant_id := pyStr tid
  let token_version ← (get_token_version tok.claims).mapError VErr.authExc
  let oidc_config ← match env.oidc with
    | .ok c => pure c
    | .error m => throw (.generic m)
  let signing_key ← match findSigningKey oidc_config.signing_keys tok.kid with
    | some k => pure k
    | none => throw (.authExc "Token signing key not found")
  let expected_issuer ← get_expected_issuer oidc_config token_version tenant_id
  if expected_issuer = "" then
    throw (.authExc "Expected issuer not found")
  let expected_audience := get_excpected_audience cfg token_version
  pure (token_version, signing_key, expected_audience, expected_issuer)

/-- The `try` body of `_validate_aad_token_common` (lines 371-434). -/
def validateBody (cfg : Config) (env : AuthEnv) (token : String)
    (is_app_only : Bool) : Except VErr (List Claim) := do
  let tok ← match env.parseJwt token with
    | .ok t => pure t
    | .error m => throw (.jose (.jwtError m))
  let (token_version, signing_key, expected_audience, expected_issuer) ←
    validateTokenPre cfg env tok
  let claims ← (jwtDecode tok signing_key expected_audience expected_issuer
    env.now).mapError VErr.jose
  let app_id_claim := if token_version = TokenVersion.V1 then "appid" else "azp"
  let _ ← (validate_claim_exists claims app_id_claim
    ("access tokens should have " ++ app_id_claim ++ " claim")).mapError VErr.authExc
  let _ ← (validate_app_only claims is_app_only).mapError VErr.authExc
  pure claims

/-- Python `pat in s` on character lists: `pat` occurs contiguously. -/
def hasInfix (pat : List Char) : List Char → Bool
  | [] => pat.isEmpty
  | l@(_ :: rest) => pat.isPrefixOf l || hasInfix pat rest

/-- The `except` clauses (lines 436-453).  A `JWTClaimsError` whose message
does not contain "Invalid audience" leaves `error_message` unassigned and
the handler itself raises `NameError` (line 445). -/
def handleValidationError : VErr → PyErr
  | .jose .expiredSignature => .authException "Token has expired"
  | .jose (.claimsError m) =>
    if hasInfix ("Invalid audience").data m.data then
      .authException ("Invalid token claims: " ++ m)
    else .nameError
  | .jose (.jwtError m) => .authException ("Token validation failed: " ++ m)
  | .authExc m => .authException ("Token validation failed: " ++ m)
  | .generic m => .authException ("Token validation failed: " ++ m)

/-- `_validate_aad_token_common` (lines 365-453).  The
`expected_tenant_id_for_issuer` parameter is accepted and, as in the
source, never read. -/
def validate_aad_token_common (cfg : Config) (env : AuthEnv) (token : String)
    (is_app_only : Bool) (expected_tenant_id_for_issuer : Option String) :
    Except PyErr (List Claim) :=
  match validateBody cfg env token is_app_only with
  | .ok claims => .ok claims
  | .error e => .error (handleValidationError e)

/-- `_validate_app_token` (lines 455-463). -/
def validate_app_token (cfg : Config) (env : AuthEnv) (token : String) :
    Except PyErr (List Claim) :=
  validate_aad_token_common cfg env token true (some cfg.publisher_tenant_id)

/-- `_validate_subject_token` (lines 465-473). -/
def validate_subject_token (cfg : Config) (env : AuthEnv) (token : String)
    (tenant_id : Option String) : Except PyErr (List Claim) :=
  validate_aad_token_common cfg env token false tenant_id

/-! ### AuthenticationFacade (authentication.py 64-131, 235-333) -/

/-- `_authenticate` (lines 235-299): validate the app token (app-only,
first-party application, publisher tenant), then either return an
app-only context or validate the subject token (same application, the
caller-supplied tenant, an allowed scope) and return a subject context. -/
def authenticate (cfg : Config) (env : AuthEnv) (tenant_id : Option String)
    (subject_and_app_token : SubjectAndAppToken) (allowed_scopes : List String)
    (require_subject_token : Bool) (require_tenant_id_header : Bool) :
    Except PyErr AuthorizationContext := do
  if require_tenant_id_header && optFalsy tenant_id then
    throw (.authException "tenant_id header is missing")
  let app_token_claims ← validate_app_token cfg env subject_and_app_token.app_token
  let app_token_version ← (get_token_version app_token_claims).mapError PyErr.authException
  let app_id_claim := if app_token_version = TokenVersion.V1 then "appid" else "azp"
  let app_token_app_id ← (validate_claim_one_of_values app_token_claims app_id_claim
    [FABRIC_BACKEND_APP_ID, FABRIC_CLIENT_FOR_WORKLOADS_APP_ID]
    "app-only token must belong to Fabric BE or Fabric client for workloads").mapError
      PyErr.authException
  let _ ← (validate_claim_value app_token_claims "tid" (some cfg.publisher_tenant_id)
    "app token must be in the publisher\x27s tenant").mapError PyErr.authException
  match subject_and_app_token.subject_token with
  | none =>
    if require_subject_token then
      throw (.authException "SubjectAndAppToken is missing subject token")
    else if require_tenant_id_header then
      pure { tenant_object_id := tenant_id }
    else
      pure {}
  | some subject_token => do
    let subject_claims ← validate_subject_token cfg env subject_token tenant_id
    let subject_token_version ← (get_token_version subject_claims).mapError PyErr.authException
    let subject_app_id_claim :=
      if subject_token_version = TokenVersion.V1 then "appid" else "azp"
    let _ ← (validate_claim_value subject_claims subject_app_id_claim
      (some app_token_app_id)
      "subject and app tokens should belong to same application").mapError PyErr.authException
    let _ ← (validate_claim_value subject_claims "tid" tenant_id
      "subject tokens must belong to the subject\x27s tenant").mapError PyErr.authException
    let _ ← (validate_any_scope subject_claims allowed_scopes).mapError PyErr.authException
    pure { original_subject_token := some subject_token,
           tenant_object_id := tenant_id,
           claims := subject_claims }

/-- `authenticate_control_plane_call` (lines 64-102): header and tenant
checks, `SubjectAndAppToken.parse`, then `_authenticate` with the allowed
scope set `[FABRIC_WORKLOAD_CONTROL]` fixed in `__init__` (line 33). -/
def authenticate_control_plane_call (cfg : Config) (env : AuthEnv)
    (auth_header : Option String) (tenant_id : Option String)
    (require_subject_token : Bool := true) (require_tenant_id_header : Bool := true) :
    Except PyErr AuthorizationContext := do
  if optFalsy auth_header then
    throw (.authException "Missing or invalid Authorization header")
  if require_tenant_id_header && optFalsy tenant_id then
    throw (.authException "tenant_id header is missing")
  let subject_and_app_token ←
    (SubjectAndAppToken.parse (auth_header.getD "")).mapError PyErr.authException
  authenticate cfg env tenant_id subject_and_app_token [FABRIC_WORKLOAD_CONTROL]
    require_subject_token require_tenant_id_header

/-- `_authenticate_bearer` (lines 316-333): validate the bearer token as
delegated, extract `tid`, check the scopes, and build the context.  The
`tenant_object_id` field of the pydantic model is `Optional[str]`: a
non-string `tid` value fails model validation (pydantic does not coerce),
modelled as a generic error. -/
def authenticate_bearer (cfg : Config) (env : AuthEnv) (token : String)
    (allowed_scopes : List String) : Except PyErr AuthorizationContext := do
  let claims ← validate_aad_token_common cfg env token false none
  let tenant_id ← (validate_claim_exists claims "tid"
    "access tokens should have this claim").mapError PyErr.authException
  let _ ← (validate_any_scope claims allowed_scopes).mapError PyErr.authException
  match tenant_id with
  | .str s =>
    pure { original_subject_token := some token,
           tenant_object_id := some s,
           claims := claims }
  | v => throw (.generic ("validation error for AuthorizationContext: tenant_object_id got "
      ++ pyStr v))

/-- `authenticate_data_plane_call` (lines 104-131): requires a
`Bearer <jwt>` header; the token is the header after `len("Bearer")`
characters, stripped.  The `tenant_id` parameter is accepted and, as in
the source, never read. -/
def authenticate_data_plane_call (cfg : Config) (env : AuthEnv)
    (auth_header : Option String) (allowed_scopes : List String)
    (tenant_id : Option String := none) : Except PyErr AuthorizationContext :=
  match auth_header with
  | none => .error (.authException "Missing or invalid Authorization header")
  | some h =>
    if !h.startsWith "Bearer " then
      .error (.authException "Missing or invalid Authorization header")
    else
      authenticate_bearer cfg env ((h.drop 6).trim) allowed_scopes

/-! ### CredentialBroker: OBO exchange (authentication.py 133-187)

The MSAL call `acquire_token_on_behalf_of` is summarised by its result: an
exception (`.error msg`, rewrapped at line 164) or a result dict
(`MsalResult`, each field `.get`-accessed).  `_get_msal_app` only selects
which cached client performs the call and does not influence the result
classification, which is what is modelled here. -/

/-- The MSAL result dict fields the OBO handler reads. -/
structure MsalResult : Type where
  error : Option String := none
  error_description : Option String := none
  suberror : Option String := none
  claims : Option String := none
  access_token : Option String := none
  deriving DecidableEq

/-- The error codes of line 171. -/
def consentErrorCodes : List String :=
  ["interaction_required", "consent_required", "invalid_grant"]

/-- The classification of one MSAL OBO result dict (authentication.py
lines 166-187). -/
def classifyOboResult (result : MsalResult) (scopes : List String) :
    Except PyErr String :=
  match result.error with
  | some error_code =>
    let error_description := result.error_description.getD ""
    if error_code ∈ consentErrorCodes || result.suberror = some "conditional_access" then
      let attached_claims : Option String :=
        match result.claims with
        | some c => if c ≠ "" then some c else none
        | none => none
      let attached_scopes : Option (List String) :=
        if error_code = "consent_required" ||
            hasInfix ("consent_required").data error_description.toLower.data then
          some scopes
        else none
      .error (.authUIRequired error_description attached_claims attached_scopes)
    else
      .error (.authException ("Error acquiring token: " ++ error_code))
  | none =>
    match result.access_token with
    | some token => .ok token
    | none => .error (.authException "Access token not found in OBO result")

/-- `get_access_token_on_behalf_of` (lines 133-187). -/
def get_access_token_on_behalf_of (cfg : Config) (auth_context : AuthorizationContext)
    (scopes : List String) (msal_call : Except String MsalResult) :
    Except PyErr String :=
  if optFalsy auth_context.original_subject_token then
    .error (.authException "OBO flow requires an original subject token.")
  else if cfg.client_id = "" || cfg.client_secret = "" then
    .error (.authException "MSAL client not configured for OBO flow.")
  else if optFalsy auth_context.tenant_object_id then
    .error (.authException "Cannot determine tenant authority for OBO flow.")
  else
    match msal_call with
    | .error m => .error (.authException ("OBO token acquisition failed: " ++ m))
    | .ok result => classifyOboResult result scopes

/-! ### CredentialBroker: the per-authority client cache
(authentication.py 49-60)

`self._msal_apps` is a dict keyed by authority URL; constructed
`ConfidentialClientApplication` instances are identified by allocation
number (`nextApp` allocates fresh instances, so equal numbers mean the
same Python object).  `_get_msal_app` is synchronous with no await point,
so on the asyncio event loop each call runs atomically: concurrent callers
interleave as a sequence of whole calls, which `run_msal_calls` models.
The association list is only ever extended under an absent key, so its
keys stay distinct and prepending matches dict insertion. -/

structure MsalState : Type where
  apps : List (String × Nat) := []
  nextApp : Nat := 0
  deriving DecidableEq

/-- Dict lookup in `_msal_apps`. -/
def lookupApp : List (String × Nat) → String → Option Nat
  | [], _ => none
  | (k, v) :: rest, authority =>
    if k = authority then some v else lookupApp rest authority

/-- The authority URL for a tenant (line 51). -/
def authorityOf (tenant_id : String) : String :=
  AAD_INSTANCE_URL ++ "/" ++ tenant_id

/-- `_get_msal_app` (lines 49-60): return the cached client for the
authority (`authorityOf tenant_id`), or construct and cache a fresh
one. -/
def get_msal_app (tenant_id : String) (st : MsalState) : Nat × MsalState :=
  match lookupApp st.apps (authorityOf tenant_id) with
  | some app => (app, st)
  | none =>
    (st.nextApp,
     { apps := (authorityOf tenant_id, st.nextApp) :: st.apps,
       nextApp := st.nextApp + 1 })

/-- A sequence of `_get_msal_app` calls against the shared cache: the list
of returned instances and the final state. -/
def run_msal_calls : List String → MsalState → List Nat × MsalState
  | [], st => ([], st)
  | t :: ts, st =>
    let (r, st1) := get_msal_app t st
    let (rs, st2) := run_msal_calls ts st1
    (r :: rs, st2)

/-- Cache well-formedness: every cached instance predates the allocator and
no instance is cached twice. -/
def MsalInv (st : MsalState) : Prop :=
  (∀ p ∈ st.apps, p.2 < st.nextApp) ∧ (st.apps.map Prod.snd).Nodup

/-- The distinct authority keys of a call sequence that are not already
cached: the keys whose clients a run must construct. -/
def newAuthorityKeys (ts : List String) (st : MsalState) : Finset String :=
  (ts.map authorityOf).toFinset.filter (fun k => lookupApp st.apps k = none)

/-! ### AuthorizationResolver (authorization.py 39-151, http_client.py 89-125)

One permission check observes one upstream response, modelled by
`HttpResponse`: the status, the `.text` body, and the outcome of
`response.json()` followed by `ResolvePermissionsResponse(**data)` (an
`Except` for a decode failure, `none` for JSON without a valid
`permissions` list, `some perms` otherwise).

`HttpClientService._make_request` calls `response.raise_for_status()`
itself (http_client.py line 100) and re-raises `httpx.HTTPStatusError` for
any non-2xx status once its retries are exhausted (each retry observes the
same modelled response, so the loop collapses), so `http_client.get` only
ever returns a 2xx response. -/

instance exceptDecEq {ε α : Type} [DecidableEq ε] [DecidableEq α] :
    DecidableEq (Except ε α) := fun x y =>
  match x, y with
  | .error a, .error b =>
    if h : a = b then .isTrue (by rw [h]) else .isFalse (fun hc => h (by injection hc))
  | .ok a, .ok b =>
    if h : a = b then .isTrue (by rw [h]) else .isFalse (fun hc => h (by injection hc))
  | .error _, .ok _ => .isFalse (fun hc => by injection hc)
  | .ok _, .error _ => .isFalse (fun hc => by injection hc)

structure HttpResponse : Type where
  status_code : Nat
  text : String := ""
  json_permissions : Except String (Option (List String)) := .ok none
  deriving DecidableEq

/-- `http_client.get` → `_make_request` (http_client.py 89-125). -/
def http_client_get (resp : HttpResponse) : Except PyErr HttpResponse :=
  if 200 ≤ resp.status_code ∧ resp.status_code < 300 then .ok resp
  else .error (.httpStatusError resp.status_code)

/-- `_resolve_item_permissions` (authorization.py 97-151).  The `try` body
raises `TooManyRequestsException` / `UnauthorizedException` for 429 /
401 / 403 and `httpx.HTTPStatusError` otherwise; every one of those is an
`Exception`, so the function\x27s own `except` clauses (lines 146-151)
catch them and re-raise `InternalErrorException`. -/
def resolve_item_permissions (resp : HttpResponse) : Except PyErr (List String) :=
  let body : Except PyErr (List String) :=
    match http_client_get resp with
    | .error e => .error e
    | .ok r =>
      if r.status_code = 429 then
        .error (.tooManyRequests "Blocked due to resolved-permissions API throttling.")
      else if r.status_code = 401 ∨ r.status_code = 403 then
        .error (.unauthorized ("Access denied by resolvepermissions API (" ++
          toString r.status_code ++ "): " ++ r.text))
      else if ¬ (200 ≤ r.status_code ∧ r.status_code < 300) then
        .error (.httpStatusError r.status_code)  -- response.raise_for_status(), line 142
      else
        match r.json_permissions with
        | .error m => .error (.generic m)
        | .ok none => .error (.generic "validation error for ResolvePermissionsResponse")
        | .ok (some perms) => .ok perms
  match body with
  | .ok v => .ok v
  | .error (.httpStatusError s) =>
    .error (.internalError ("Error communicating with Fabric API: " ++
      pyStrOfErr (.httpStatusError s)))
  | .error e => .error (.internalError ("Unexpected error: " ++ pyStrOfErr e))

/-- `validate_permissions` (authorization.py 39-93): build the composite
token (outcome passed in), resolve the permissions, then require every
entry of `required_permissions` to match one returned permission
case-insensitively. -/
def validate_permissions (composite_token : Except PyErr String)
    (resp : HttpResponse) (required_permissions : List String) :
    Except PyErr Unit := do
  let _ ← composite_token
  let response ← resolve_item_permissions resp
  if response = [] then
    throw (.unauthorized "Failed to resolve permissions")
  let missing_permissions := required_permissions.filter
    (fun rp => !response.any (fun p => p.toLower = rp.toLower))
  if missing_permissions ≠ [] then
    throw (.unauthorized "User does not have required permissions")
  pure ()

/-! ### Concrete instances used by closed witnesses and counterexamples -/

def c3cfg : Config :=
  { publisher_tenant_id := "pt", audience := "aud", client_id := "cid",
    client_secret := "cs" }

def c3ctx : AuthorizationContext :=
  { original_subject_token := some "tok", tenant_object_id := some "t1" }

def c3result : MsalResult :=
  { error := some "consent_required", error_description := some "AADSTS65001",
    claims := some "challenge" }

/-- An OIDC configuration with one signing key, for concrete runs. -/
def exOidc : OpenIdConnectConfiguration :=
  { issuer_configuration := some "https://sts.windows.net/\x7btenantid\x7d/",
    signing_keys := [{ kid := some "k1" }] }

/-- A token whose signature verifies under every key, carrying `exp` in
the past but an unsupported `ver` claim. -/
def c7tok : JoseToken :=
  { kid := some "k1", alg := some "RS256",
    claims := [{ type := "tid", value := .str "t1" },
               { type := "ver", value := .str "3.0" },
               { type := "exp", value := .num 0 }],
    sigValidFor := fun _ => true }

def c7env : AuthEnv :=
  { parseJwt := fun s =>
      if s = "eyJt" then .ok c7tok else .error "Error decoding token headers.",
    oidc := .ok exOidc,
    now := 1000 }

/-- A well-formed delegated v2 token that is expired (and otherwise
valid), for the amended-C7 witness. -/
def c7wtok : JoseToken :=
  { kid := some "k1", alg := some "RS256",
    claims := [{ type := "tid", value := .str "t1" },
               { type := "ver", value := .str "2.0" },
               { type := "exp", value := .num 0 },
               { type := "iss", value := .str "https://login.microsoftonline.com/t1/v2.0" },
               { type := "azp", value := .str "appx" },
               { type := "scp", value := .str "FabricWorkloadControl" }],
    sigValidFor := fun k => k.kid == some "k1" }

def c7wenv : AuthEnv :=
  { parseJwt := fun s =>
      if s = "eyJw" then .ok c7wtok else .error "Error decoding token headers.",
    oidc := .ok exOidc,
    now := 1000 }

/-- A valid app-only v2 token in the publisher tenant `pub-tenant`. -/
def c1appTok : JoseToken :=
  { kid := some "k1", alg := some "RS256",
    claims := [{ type := "tid", value := .str "pub-tenant" },
               { type := "ver", value := .str "2.0" },
               { type := "iss",
                 value := .str "https://login.microsoftonline.com/pub-tenant/v2.0" },
               { type := "azp", value := .str "00000009-0000-0000-c000-000000000000" },
               { type := "idtyp", value := .str "app" },
               { type := "oid", value := .str "app-oid" }],
    sigValidFor := fun k => k.kid == some "k1" }

def c1cfg : Config :=
  { publisher_tenant_id := "pub-tenant", audience := "aud", client_id := "cid",
    client_secret := "cs" }

def c1env : AuthEnv :=
  { parseJwt := fun s =>
      if s = "eyJapp" then .ok c1appTok else .error "Error decoding token headers.",
    oidc := .ok exOidc,
    now := 1000 }

/-- The header carrying only the app token (empty subject). -/
def c1header : String :=
  SubjectAndAppToken.generate_authorization_header_value none "eyJapp"

/-- The context the counterexample run returns: the attacker-chosen tenant
header, no subject, no claims. -/
def c1ctx : AuthorizationContext :=
  { original_subject_token := none, tenant_object_id := some "attacker-tenant",
    claims := [] }

/-- A valid delegated v2 token in tenant `t1` carrying the control scope,
for the data-plane witness. -/
def c10tok : JoseToken :=
  { kid := some "k1", alg := some "RS256",
    claims := [{ type := "tid", value := .str "t1" },
               { type := "ver", value := .str "2.0" },
               { type := "iss", value := .str "https://login.microsoftonline.com/t1/v2.0" },
               { type := "azp", value := .str "appx" },
               { type := "scp", value := .str "FabricWorkloadControl" }],
    sigValidFor := fun k => k.kid == some "k1" }

def c10env : AuthEnv :=
  { parseJwt := fun s =>
      if s = "eyJs" then .ok c10tok else .error "Error decoding token headers.",
    oidc := .ok exOidc,
    now := 1000 }

/-- An empty client cache and a three-call trace hitting two tenants. -/
def c8st0 : MsalState := { apps := [], nextApp := 0 }

def c8ts : List String := ["t1", "t1", "t2"]

def c8rs : List Nat := [0, 0, 1]

def c8st1 : MsalState :=
  { apps := [("https://login.microsoftonline.com/t2", 1),
             ("https://login.microsoftonline.com/t1", 0)],
    nextApp := 2 }

/-! ## Shared lemmas -/

theorem except_bind_ok {ε α β : Type} {x : Except ε α} {f : α → Except ε β} {b : β}
    (h : (x >>= f) = .ok b) : ∃ a, x = .ok a ∧ f a = .ok b := by
  cases x with
  | error e => simp [Bind.bind, Except.bind, pure, Except.pure] at h
  | ok a => exact ⟨a, rfl, by simpa [Bind.bind, Except.bind, pure, Except.pure] using h⟩

theorem lookupClaim_eq_none_iff (claims : List Claim) (n : String) :
    lookupClaim claims n = none ↔ ∀ c ∈ claims, c.type ≠ n := by
  induction claims with
  | nil => simp [lookupClaim]
  | cons c rest ih =>
    by_cases hc : c.type = n
    · simp [lookupClaim, hc]
    · simp [lookupClaim, hc, ih]

theorem validate_claim_exists_ok_iff (claims : List Claim) (n m : String)
    (v : ClaimValue) :
    validate_claim_exists claims n m = .ok v ↔ lookupClaim claims n = some v := by
  unfold validate_claim_exists
  cases lookupClaim claims n <;> simp

theorem validate_no_claim_ok_iff (claims : List Claim) (n : String) :
    validate_no_claim claims n = .ok () ↔ lookupClaim claims n = none := by
  unfold validate_no_claim
  cases lookupClaim claims n <;> simp

theorem validate_claim_value_ok (claims : List Claim) (n t m : String)
    (v : ClaimValue) (h : validate_claim_value claims n (some t) m = .ok v) :
    lookupClaim claims n = some v ∧ pyStr v = t := by
  unfold validate_claim_value at h
  cases hl : lookupClaim claims n with
  | none => simp [validate_claim_exists, hl, Bind.bind, Except.bind, pure, Except.pure] at h
  | some w =>
    simp [validate_claim_exists, hl, Bind.bind, Except.bind, pure, Except.pure] at h
    by_cases hs : pyStr w = t
    · simp [hs] at h
      subst h
      exact ⟨rfl, hs⟩
    · simp [hs] at h

/-! ## Claim C5: token shape enforcement -/

/-- Claim C5: validating a claim set as app-only succeeds exactly when the
`idtyp` claim renders as "app", an `oid` claim is present and no `scp`
claim is present (so an app-only token that also carries `scp` fails);
validating as delegated succeeds exactly when no `idtyp` claim is present
and an `scp` claim is present (so a delegated token carrying `idtyp`
fails). -/
theorem c5_token_shape_validation (claims : List Claim) :
    (validate_app_only claims true = .ok () ↔
      ((∃ v, lookupClaim claims "idtyp" = some v ∧ pyStr v = "app") ∧
       (∃ v, lookupClaim claims "oid" = some v) ∧
       (∀ c ∈ claims, c.type ≠ "scp"))) ∧
    (validate_app_only claims false = .ok () ↔
      ((∀ c ∈ claims, c.type ≠ "idtyp") ∧
       (∃ v, lookupClaim claims "scp" = some v))) := by
  constructor
  · rw [← lookupClaim_eq_none_iff]
    unfold validate_app_only validate_claim_value
    cases h1 : lookupClaim claims "idtyp" with
    | none => simp [validate_claim_exists, h1, Bind.bind, Except.bind, pure, Except.pure]
    | some v1 =>
      by_cases hv : pyStr v1 = "app"
      · cases h2 : lookupClaim claims "oid" with
        | none => simp [validate_claim_exists, h1, h2, hv, Bind.bind, Except.bind, pure, Except.pure]
        | some v2 =>
          cases h3 : lookupClaim claims "scp" with
          | none =>
            simp [validate_claim_exists, validate_no_claim, h1, h2, h3, hv,
              Bind.bind, Except.bind, pure, Except.pure]
          | some v3 =>
            simp [validate_claim_exists, validate_no_claim, h1, h2, h3, hv,
              Bind.bind, Except.bind, pure, Except.pure]
      · constructor
        · intro h
          exfalso
          simp [validate_claim_exists, h1, hv, Bind.bind, Except.bind, pure, Except.pure] at h
        · rintro ⟨⟨w, hw, hwapp⟩, -⟩
          cases hw
          exact absurd hwapp hv
  · rw [← lookupClaim_eq_none_iff]
    unfold validate_app_only
    cases h1 : lookupClaim claims "idtyp" with
    | some v1 => simp [validate_no_claim, h1, Bind.bind, Except.bind, pure, Except.pure]
    | none =>
      cases h2 : lookupClaim claims "scp" with
      | none => simp [validate_no_claim, validate_claim_exists, h1, h2, Bind.bind, Except.bind, pure, Except.pure]
      | some v2 => simp [validate_no_claim, validate_claim_exists, h1, h2, Bind.bind, Except.bind, pure, Except.pure]

/-! ## Claim C9: the `roles` claim feeds scope validation -/

/-- Claim C9: when no allowed scope appears among the `scp`-derived scopes
but some allowed scope appears among the `roles`-derived scopes (list or
string), `_validate_any_scope` succeeds instead of raising the
missing-scopes error. -/
theorem c9_roles_scopes_accepted (claims : List Claim) (allowed_scopes : List String)
    (hscp : ∀ s ∈ allowed_scopes, s ∉ scpScopes claims)
    (hroles : ∃ s ∈ allowed_scopes, s ∈ rolesScopes claims) :
    validate_any_scope claims allowed_scopes = .ok () := by
  obtain ⟨s, hs, hmem⟩ := hroles
  unfold validate_any_scope
  have hany : allowed_scopes.any
      (fun scope => (extract_scopes_from_claims claims).contains scope) = true := by
    rw [List.any_eq_true]
    refine ⟨s, hs, ?_⟩
    exact List.elem_eq_true_of_mem
      (by unfold extract_scopes_from_claims; exact List.mem_append_right _ hmem)
  simp only [hany, if_true]

theorem c9_roles_scopes_accepted_witness :
    validate_any_scope [{ type := "roles", value := .list ["RoleA"] }] ["RoleA"] = .ok () :=
  c9_roles_scopes_accepted _ _ (by decide) (by decide)

/-! ## Claim C2: status mapping of the permission-resolution endpoint

The claim says 429 reaches the caller as `RateLimited`
(`TooManyRequestsException`), 401/403 as `PermissionDenied`
(`UnauthorizedException`) and other non-2xx as `InternalError`.  In the
code every non-2xx response raises `httpx.HTTPStatusError` inside
`HttpClientService._make_request` (http_client.py line 100) before the
status checks of `_resolve_item_permissions` can run, and that error — as
well as the 429/401/403 exceptions, had they been raised — is caught by
the blanket `except` clauses of authorization.py lines 146-151 and
re-raised as `InternalErrorException`.  So every non-2xx status reaches
the caller as `InternalError`, contradicting both the claim and the
function\x27s own docstring ("Raises: TooManyRequestsException ...
UnauthorizedException ..."). -/

/-- Claim C2 (code bug): the permission-resolution call turns 429, 401,
403 and 500 alike into `InternalErrorException`, both at
`_resolve_item_permissions` and as observed through
`validate_permissions`. -/
theorem c2_resolve_permissions_status_mapping :
    resolve_item_permissions { status_code := 429 } =
      .error (.internalError "Error communicating with Fabric API: HTTP status error 429") ∧
    resolve_item_permissions { status_code := 401 } =
      .error (.internalError "Error communicating with Fabric API: HTTP status error 401") ∧
    resolve_item_permissions { status_code := 403 } =
      .error (.internalError "Error communicating with Fabric API: HTTP status error 403") ∧
    resolve_item_permissions { status_code := 500 } =
      .error (.internalError "Error communicating with Fabric API: HTTP status error 500") ∧
    validate_permissions (.ok "token") { status_code := 429 } ["Read"] =
      .error (.internalError "Error communicating with Fabric API: HTTP status error 429") :=
  ⟨rfl, rfl, rfl, rfl, rfl⟩

/-! ## Claim C6: OIDC cache availability over freshness -/

/-- Claim C6: `get_configuration_async` propagates the upstream fetch
error exactly when the fetch fails and no cached configuration exists;
whenever a cached configuration exists (however stale) and the fetch
fails, that cached configuration is returned unchanged. -/
theorem c6_oidc_cache_availability (st : OidcState) (current_time : Int)
    (cache_duration_seconds : Int) (fetch : FetchOutcome) :
    ((∃ m, get_configuration_async st current_time cache_duration_seconds fetch =
        .error m) ↔
      (st.configuration = none ∧ fetchFails fetch = true)) ∧
    (∀ cached, st.configuration = some cached → fetchFails fetch = true →
      get_configuration_async st current_time cache_duration_seconds fetch =
        .ok (cached, st)) := by
  cases hc : st.configuration with
  | none =>
    refine ⟨?_, by intro cached hcached; simp at hcached⟩
    cases fetch with
    | ok issuer jwks_uri keys =>
      cases jwks_uri with
      | none => simp [get_configuration_async, hc, fetchFails]
      | some u => simp [get_configuration_async, hc, fetchFails]
    | err m => simp [get_configuration_async, hc, fetchFails]
  | some cached =>
    constructor
    · constructor
      · rintro ⟨m, hm⟩
        exfalso
        by_cases hfresh : current_time - st.last_updated < cache_duration_seconds
        · simp [get_configuration_async, hc, hfresh] at hm
        · cases fetch with
          | ok issuer jwks_uri keys =>
            cases jwks_uri with
            | none => simp [get_configuration_async, hc, hfresh] at hm
            | some u => simp [get_configuration_async, hc, hfresh] at hm
          | err m2 => simp [get_configuration_async, hc, hfresh] at hm
      · rintro ⟨hnone, -⟩
        simp at hnone
    · intro c hcsome hfail
      injection hcsome with hcc
      subst hcc
      by_cases hfresh : current_time - st.last_updated < cache_duration_seconds
      · simp [get_configuration_async, hc, hfresh]
      · cases fetch with
        | ok issuer jwks_uri keys =>
          cases jwks_uri with
          | none => simp [get_configuration_async, hc, hfresh]
          | some u => simp [fetchFails] at hfail
        | err m2 => simp [get_configuration_async, hc, hfresh]

/-! ## Claim C4: dual-token header round-trip -/

theorem string_data_append (s t : String) : (s ++ t).data = s.data ++ t.data := rfl

theorem stripLit_append (p l : List Char) : stripLit p (p ++ l) = some l := by
  induction p with
  | nil => rfl
  | cons c cs ih => simp [stripLit, ih]

theorem jwtChar_ne_quote (c : Char) (h : jwtChar c = true) : (c != '"') = true := by
  rw [bne_iff_ne]
  intro he
  subst he
  simp [jwtChar] at h

theorem isJwtToken_no_quote (l : List Char) (h : isJwtToken l = true) :
    ∀ c ∈ l, (c != '"') = true := by
  cases l with
  | nil => simp [isJwtToken] at h
  | cons c1 t1 =>
  cases t1 with
  | nil => simp [isJwtToken] at h
  | cons c2 t2 =>
  cases t2 with
  | nil => simp [isJwtToken] at h
  | cons c3 rest =>
    simp only [isJwtToken, Bool.and_eq_true, beq_iff_eq, List.all_eq_true] at h
    obtain ⟨⟨⟨⟨he, hy⟩, hJ⟩, -⟩, hall⟩ := h
    subst he hy hJ
    intro c hc
    simp only [List.mem_cons] at hc
    rcases hc with rfl | rfl | rfl | hrest
    · rfl
    · rfl
    · rfl
    · exact jwtChar_ne_quote c (hall c hrest)

theorem takeWhile_quote_free (s r : List Char) (h : ∀ c ∈ s, (c != '"') = true) :
    (s ++ '"' :: r).takeWhile (fun c => c != '"') = s := by
  induction s with
  | nil => simp [List.takeWhile_cons]
  | cons c cs ih =>
    have hc := h c (List.mem_cons_self c cs)
    simp only [List.cons_append, List.takeWhile_cons, hc, if_true]
    rw [ih (fun x hx => h x (List.mem_cons_of_mem c hx))]

theorem dropWhile_quote_free (s r : List Char) (h : ∀ c ∈ s, (c != '"') = true) :
    (s ++ '"' :: r).dropWhile (fun c => c != '"') = '"' :: r := by
  induction s with
  | nil => simp [List.dropWhile_cons]
  | cons c cs ih =>
    have hc := h c (List.mem_cons_self c cs)
    simp only [List.cons_append, List.dropWhile_cons, hc, if_true]
    exact ih (fun x hx => h x (List.mem_cons_of_mem c hx))

/-- `headerMid` starts with the closing quote of the subject group. -/
theorem headerMid_eq : headerMid = '"' :: (", appToken=\"").data := rfl

theorem parseHeaderChars_concat (s a : List Char)
    (hs : ∀ c ∈ s, (c != '"') = true) (ha : ∀ c ∈ a, (c != '"') = true) :
    parseHeaderChars (headerPre ++ (s ++ (headerMid ++ (a ++ ['"'])))) =
      (if isJwtToken a then
        if isJwtToken s then some (some (String.mk s), String.mk a)
        else if s.isEmpty then some (none, String.mk a)
        else none
      else none) := by
  unfold parseHeaderChars
  simp only [stripLit_append]
  have h2 : s ++ (headerMid ++ (a ++ ['"'])) =
      s ++ '"' :: ((", appToken=\"").data ++ (a ++ ['"'])) := by
    rw [headerMid_eq]
    simp
  rw [h2, dropWhile_quote_free _ _ hs, takeWhile_quote_free _ _ hs]
  have h3 : ('"' :: ((", appToken=\"").data ++ (a ++ ['"']))) =
      headerMid ++ (a ++ ['"']) := by
    rw [headerMid_eq]
    simp
  rw [h3]
  simp only [stripLit_append]
  rw [dropWhile_quote_free _ _ ha, takeWhile_quote_free _ _ ha]
  rfl

theorem string_mk_data (s : String) : String.mk s.data = s := rfl

/-- Claim C4: for every token pair whose components match the JWT shape of
the header grammar (`eyJ[\w\-\._]+`), parsing the generated header
reproduces the pair exactly, including the absent-subject case rendered as
`subjectToken=""`. -/
theorem c4_subject_and_app_token_round_trip (subject_token : Option String)
    (app_token : String)
    (hs : ∀ s, subject_token = some s → isJwtToken s.data = true)
    (ha : isJwtToken app_token.data = true) :
    SubjectAndAppToken.parse
      (SubjectAndAppToken.generate_authorization_header_value subject_token app_token) =
      .ok { subject_token := subject_token, app_token := app_token } := by
  have hquote_a := isJwtToken_no_quote app_token.data ha
  have hdata : (SubjectAndAppToken.generate_authorization_header_value
      subject_token app_token).data =
      headerPre ++ ((subject_token.getD "").data ++
        (headerMid ++ (app_token.data ++ ['"']))) := by
    unfold SubjectAndAppToken.generate_authorization_header_value
    simp only [string_data_append]
    rw [headerMid_eq]
    simp [headerPre]
  have hquote_s : ∀ c ∈ (subject_token.getD "").data, (c != '"') = true := by
    cases subject_token with
    | none => intro c hc; simp at hc
    | some s => exact isJwtToken_no_quote s.data (hs s rfl)
  have hne : SubjectAndAppToken.generate_authorization_header_value
      subject_token app_token ≠ "" := by
    intro he
    have : (SubjectAndAppToken.generate_authorization_header_value
      subject_token app_token).data = [] := by rw [he]
    rw [hdata] at this
    simp [headerPre] at this
  unfold SubjectAndAppToken.parse
  rw [if_neg hne, hdata, parseHeaderChars_concat _ _ hquote_s hquote_a, if_pos ha]
  cases subject_token with
  | some s =>
    have hsome : isJwtToken s.data = true := hs s rfl
    simp [Option.getD, hsome, string_mk_data]
  | none =>
    rfl

theorem c4_subject_and_app_token_round_trip_witness :
    SubjectAndAppToken.parse
      (SubjectAndAppToken.generate_authorization_header_value (some "eyJhbGci.e30") "eyJ0eXAi.e30") =
      .ok { subject_token := some "eyJhbGci.e30", app_token := "eyJ0eXAi.e30" } :=
  c4_subject_and_app_token_round_trip (some "eyJhbGci.e30") "eyJ0eXAi.e30"
    (fun s h => by injection h with h1; rw [← h1]; decide) (by decide)

/-! ## Claim C3: OBO failure classification -/

/-- Claim C3: for an OBO token-exchange error response (the preconditions
of lines 141-151 passing and the result dict carrying an `error` key), the
call raises `AuthenticationUIRequiredException` exactly when the error
code is `interaction_required`, `consent_required` or `invalid_grant`, or
the sub-error is `conditional_access`; the claims challenge of the
response, when present, is carried on that error; the requested scopes are
attached when the failure is specifically `consent_required`; and every
other error code raises a plain `AuthenticationException`. -/
theorem c3_obo_error_classification (cfg : Config)
    (auth_context : AuthorizationContext) (scopes : List String)
    (result : MsalResult) (error_code : String)
    (hsub : optFalsy auth_context.original_subject_token = false)
    (hcid : cfg.client_id ≠ "") (hsec : cfg.client_secret ≠ "")
    (htid : optFalsy auth_context.tenant_object_id = false)
    (herr : result.error = some error_code) :
    ((∃ d c s, get_access_token_on_behalf_of cfg auth_context scopes (.ok result) =
        .error (.authUIRequired d c s)) ↔
      (error_code ∈ consentErrorCodes ∨ result.suberror = some "conditional_access")) ∧
    (∀ c, result.claims = some c → c ≠ "" →
      (error_code ∈ consentErrorCodes ∨ result.suberror = some "conditional_access") →
      ∃ s, get_access_token_on_behalf_of cfg auth_context scopes (.ok result) =
        .error (.authUIRequired (result.error_description.getD "") (some c) s)) ∧
    (error_code = "consent_required" →
      get_access_token_on_behalf_of cfg auth_context scopes (.ok result) =
        .error (.authUIRequired (result.error_description.getD "")
          (match result.claims with
           | some c => if c ≠ "" then some c else none
           | none => none)
          (some scopes))) ∧
    (¬(error_code ∈ consentErrorCodes ∨ result.suberror = some "conditional_access") →
      get_access_token_on_behalf_of cfg auth_context scopes (.ok result) =
        .error (.authException ("Error acquiring token: " ++ error_code))) := by
  have hred : get_access_token_on_behalf_of cfg auth_context scopes (.ok result) =
      (if error_code ∈ consentErrorCodes ∨ result.suberror = some "conditional_access" then
        .error (.authUIRequired (result.error_description.getD "")
          (match result.claims with
           | some c => if c ≠ "" then some c else none
           | none => none)
          (if error_code = "consent_required" ||
              hasInfix ("consent_required").data (result.error_description.getD "").toLower.data
           then some scopes else none))
      else .error (.authException ("Error acquiring token: " ++ error_code))) := by
    unfold get_access_token_on_behalf_of classifyOboResult
    rw [hsub, htid]
    simp only [Bool.false_eq_true, if_false]
    rw [if_neg (by simp [hcid, hsec]), herr]
    dsimp only
    by_cases hcond : error_code ∈ consentErrorCodes ∨ result.suberror = some "conditional_access"
    · have hb : (decide (error_code ∈ consentErrorCodes) ||
          decide (result.suberror = some "conditional_access")) = true := by
        simpa using hcond
      rw [hb, if_pos hcond]
      rfl
    · have hb : (decide (error_code ∈ consentErrorCodes) ||
          decide (result.suberror = some "conditional_access")) = false := by
        rw [Bool.eq_false_iff]
        intro hcontra
        exact hcond (by simpa using hcontra)
      rw [hb, if_neg hcond]
      rfl
  refine ⟨?_, ?_, ?_, ?_⟩
  · constructor
    · rintro ⟨d, c, s, hui⟩
      by_contra hcond
      rw [hred, if_neg hcond] at hui
      cases hui
    · intro hcond
      rw [hred, if_pos hcond]
      exact ⟨_, _, _, rfl⟩
  · intro c hclaims hne hcond
    rw [hred, if_pos hcond, hclaims]
    refine ⟨if error_code = "consent_required" ||
        hasInfix ("consent_required").data (result.error_description.getD "").toLower.data then
        some scopes else none, ?_⟩
    dsimp only
    rw [if_pos hne]
  · intro hconsent
    rw [hred, if_pos (Or.inl (by rw [hconsent]; simp [consentErrorCodes]))]
    rw [if_pos (by rw [hconsent]; simp)]
  · intro hcond
    rw [hred, if_neg hcond]

theorem c3_obo_error_classification_witness :
    ((∃ d c s, get_access_token_on_behalf_of c3cfg c3ctx ["scope1"] (.ok c3result) =
        .error (.authUIRequired d c s)) ↔
      ("consent_required" ∈ consentErrorCodes ∨
        c3result.suberror = some "conditional_access")) ∧
    (∀ c, c3result.claims = some c → c ≠ "" →
      ("consent_required" ∈ consentErrorCodes ∨
        c3result.suberror = some "conditional_access") →
      ∃ s, get_access_token_on_behalf_of c3cfg c3ctx ["scope1"] (.ok c3result) =
        .error (.authUIRequired (c3result.error_description.getD "") (some c) s)) ∧
    ("consent_required" = "consent_required" →
      get_access_token_on_behalf_of c3cfg c3ctx ["scope1"] (.ok c3result) =
        .error (.authUIRequired (c3result.error_description.getD "")
          (match c3result.claims with
           | some c => if c ≠ "" then some c else none
           | none => none)
          (some ["scope1"]))) ∧
    (¬("consent_required" ∈ consentErrorCodes ∨
        c3result.suberror = some "conditional_access") →
      get_access_token_on_behalf_of c3cfg c3ctx ["scope1"] (.ok c3result) =
        .error (.authException ("Error acquiring token: " ++ "consent_required"))) :=
  c3_obo_error_classification c3cfg c3ctx ["scope1"] c3result "consent_required"
    rfl (by decide) (by decide) rfl rfl

/-! ## Claim C7: expiry

The claim says a token with a valid signature and `exp` in the past fails
`TokenExpired` "regardless of the token's other claims".  That is too
strong: `_validate_aad_token_common` reads `tid` and `ver` and looks up
the signing key *before* `jwt.decode` runs, so e.g. an expired,
correctly-signed token whose `ver` claim is "3.0" fails with the
unsupported-version error, not with `TokenExpired` — the counterexample
below.  The amended claim adds the precondition that those pre-signature
steps succeed (and that jose's earlier `iat`/`nbf` checks pass, since
jose validates them before `exp`); under it, `TokenExpired` is raised
regardless of all other claims (`aud`, `iss`, shape, scopes) and of the
app-only flag. -/

/-- Claim C7, as stated, is false: this token's signature verifies under
every key, its `exp` (0) is more than 60s before `now` (1000), yet
validation reports the unsupported token version, not expiry. -/
theorem c7_counterexample :
    validate_aad_token_common c3cfg c7env "eyJt" false none =
      .error (.authException "Token validation failed: Unsupported token version: 3.0") ∧
    c7tok.sigValidFor { kid := some "k1" } = true ∧
    lookupClaim c7tok.claims "exp" = some (.num 0) ∧
    ((0 : Int) < c7env.now - 60) ∧
    validate_aad_token_common c3cfg c7env "eyJt" false none ≠
      .error (.authException "Token has expired") := by
  have h1 : validate_aad_token_common c3cfg c7env "eyJt" false none =
      .error (.authException "Token validation failed: Unsupported token version: 3.0") := rfl
  refine ⟨h1, rfl, rfl, by decide, ?_⟩
  intro h
  rw [h1] at h
  injection h with h2
  injection h2 with h3
  exact absurd h3 (by decide)

/-- Claim C7 (amended): provided the pre-signature steps succeed (truthy
`tid`, supported `ver`, OIDC configuration available, signing key found,
non-empty expected issuer — together `validateTokenPre` succeeding) and
jose's `iat`/`nbf` checks pass, a token whose signature verifies and
whose `exp` is more than the 60s leeway in the past fails with
"Token has expired", regardless of its other claims and of the app-only
flag. -/
theorem c7_amended_token_expired (cfg : Config) (env : AuthEnv) (token : String)
    (tok : JoseToken) (ver : TokenVersion) (key : SigningKey) (aud iss : String)
    (is_app_only : Bool) (expected_tenant : Option String) (v : ClaimValue) (e : Int)
    (hparse : env.parseJwt token = .ok tok)
    (hpre : validateTokenPre cfg env tok = .ok (ver, key, aud, iss))
    (hsig : tok.sigValidFor key = true)
    (hiat : joseValidateIat tok.claims = .ok ())
    (hnbf : joseValidateNbf tok.claims env.now = .ok ())
    (hexp : lookupClaim tok.claims "exp" = some v)
    (hexpInt : claimInt v = some e)
    (hpast : e < env.now - 60) :
    validate_aad_token_common cfg env token is_app_only expected_tenant =
      .error (.authException "Token has expired") := by
  have hdecode : jwtDecode tok key aud iss env.now = .error .expiredSignature := by
    unfold jwtDecode
    rw [hsig]
    simp only [Bool.not_true, Bool.false_eq_true, if_false]
    rw [hiat]
    simp only [Bind.bind, Except.bind]
    rw [hnbf]
    simp only []
    unfold joseValidateExp
    rw [hexp]
    dsimp only
    rw [hexpInt]
    dsimp only
    rw [if_pos hpast]
  have hbody : validateBody cfg env token is_app_only = .error (.jose .expiredSignature) := by
    unfold validateBody
    rw [hparse]
    simp only [Bind.bind, Except.bind, pure, Except.pure]
    rw [hpre]
    simp only []
    rw [hdecode]
    rfl
  unfold validate_aad_token_common
  rw [hbody]
  rfl

theorem c7_amended_token_expired_witness :
    validate_aad_token_common c3cfg c7wenv "eyJw" false none =
      .error (.authException "Token has expired") :=
  c7_amended_token_expired c3cfg c7wenv "eyJw" c7wtok .V2 { kid := some "k1" }
    "cid" "https://login.microsoftonline.com/t1/v2.0" false none (.num 0) 0
    rfl rfl rfl rfl rfl rfl rfl (by decide)

/-! ## Claim C10: data-plane authentication ignores the tenant header -/

/-- Claim C10: `authenticate_data_plane_call` is independent of its
`tenant_id` parameter (the source accepts it and never reads it), and on
success the returned context's `tenant_object_id` is exactly the `tid`
claim of the validated bearer token's claim set. -/
theorem c10_data_plane_tenant_independence (cfg : Config) (env : AuthEnv)
    (auth_header : Option String) (allowed_scopes : List String)
    (t1 t2 : Option String) :
    (authenticate_data_plane_call cfg env auth_header allowed_scopes t1 =
      authenticate_data_plane_call cfg env auth_header allowed_scopes t2) ∧
    (∀ ctx, authenticate_data_plane_call cfg env auth_header allowed_scopes t1 = .ok ctx →
      ∃ s, lookupClaim ctx.claims "tid" = some (.str s) ∧
        ctx.tenant_object_id = some s) := by
  refine ⟨rfl, ?_⟩
  intro ctx hok
  unfold authenticate_data_plane_call at hok
  cases auth_header with
  | none => cases hok
  | some h =>
    by_cases hb : h.startsWith "Bearer " <;> simp only [hb] at hok
    · unfold authenticate_bearer at hok
      obtain ⟨claims, hclaims, hok⟩ := except_bind_ok hok
      obtain ⟨tidv, htid, hok⟩ := except_bind_ok hok
      obtain ⟨u, hscope, hok⟩ := except_bind_ok hok
      cases hl : validate_claim_exists claims "tid" "access tokens should have this claim" with
      | error m => rw [hl] at htid; simp [Except.mapError] at htid
      | ok w =>
        rw [hl] at htid
        simp only [Except.mapError] at htid
        injection htid with htid
        subst htid
        cases w with
        | str s =>
          simp only [pure, Except.pure] at hok
          injection hok with hok
          subst hok
          refine ⟨s, ?_, rfl⟩
          exact (validate_claim_exists_ok_iff claims "tid" _ _).mp hl
        | num n => cases hok
        | list l => cases hok
        | null => cases hok
    · cases hok

theorem c10_data_plane_tenant_independence_witness :
    (authenticate_data_plane_call c3cfg c10env (some "Bearer eyJs")
        ["FabricWorkloadControl"] (some "other-tenant") =
      authenticate_data_plane_call c3cfg c10env (some "Bearer eyJs")
        ["FabricWorkloadControl"] none) ∧
    (∀ ctx, authenticate_data_plane_call c3cfg c10env (some "Bearer eyJs")
        ["FabricWorkloadControl"] (some "other-tenant") = .ok ctx →
      ∃ s, lookupClaim ctx.claims "tid" = some (.str s) ∧
        ctx.tenant_object_id = some s) :=
  c10_data_plane_tenant_independence c3cfg c10env (some "Bearer eyJs")
    ["FabricWorkloadControl"] (some "other-tenant") none

/-! ## Claim C1: provenance of `tenant_object_id`

The claim says every `tenant_object_id` produced by a successful
`authenticate_control_plane_call` — including the
`require_subject_token=False` path with no subject token — equals the
`tid` claim of a cryptographically validated token.  In that path the code
returns `AuthorizationContext(tenant_object_id=tenant_id)`
(authentication.py line 273), where `tenant_id` is the caller-supplied
header value: the only validated token there is the app token, whose `tid`
was checked against the *publisher* tenant, not against `tenant_id`.  So a
caller presenting a valid app token may name any tenant in the header and
have it become `tenant_object_id` unvalidated — the counterexample below.
When a subject token is present the claim does hold: the subject token's
`tid` claim is validated to equal `tenant_id` before the context is
built — the amended theorem. -/

/-- Claim C1, as stated, is false: with a valid publisher-tenant app
token, an empty subject token, `require_subject_token=False` and the
caller-chosen header value `attacker-tenant`, authentication succeeds and
`tenant_object_id` is `attacker-tenant`, while the `tid` claim of the only
validated token is `pub-tenant`. -/
theorem c1_counterexample :
    authenticate_control_plane_call c1cfg c1env (some c1header)
        (some "attacker-tenant") false true =
      .ok { original_subject_token := none,
            tenant_object_id := some "attacker-tenant", claims := [] } ∧
    validate_app_token c1cfg c1env "eyJapp" = .ok c1appTok.claims ∧
    lookupClaim c1appTok.claims "tid" = some (.str "pub-tenant") ∧
    ("attacker-tenant" : String) ≠ "pub-tenant" := by
  refine ⟨rfl, rfl, rfl, by decide⟩

/-- Claim C1 (amended): when a subject token is present, a successful
`authenticate_control_plane_call` derives `tenant_object_id` from the
`tid` claim of the validated subject token (whose claims the context
carries); when the subject token is absent, the context carries no claims
and `tenant_object_id` is the caller-supplied `tenant_id` header when the
tenant header is required, and absent otherwise. -/
theorem c1_amended_tenant_object_id (cfg : Config) (env : AuthEnv)
    (auth_header tenant_id : Option String) (rst rth : Bool)
    (ctx : AuthorizationContext)
    (hok : authenticate_control_plane_call cfg env auth_header tenant_id rst rth =
      .ok ctx) :
    (∀ s, ctx.original_subject_token.isSome = true → ctx.tenant_object_id = some s →
      ∃ v, lookupClaim ctx.claims "tid" = some v ∧ pyStr v = s) ∧
    (ctx.original_subject_token = none →
      ctx.claims = [] ∧ ctx.tenant_object_id = (if rth then tenant_id else none)) := by
  unfold authenticate_control_plane_call at hok
  by_cases hh : optFalsy auth_header = true
  · rw [hh] at hok
    simp [Bind.bind, Except.bind] at hok
  · rw [Bool.not_eq_true] at hh
    rw [hh] at hok
    simp only [Bool.false_eq_true, if_false, Bind.bind, Except.bind] at hok
    by_cases ht : (rth && optFalsy tenant_id) = true
    · rw [ht] at hok
      simp [pure, Except.pure] at hok
    · rw [Bool.not_eq_true] at ht
      rw [ht] at hok
      simp only [Bool.false_eq_true, if_false] at hok
      obtain ⟨sat, hsat, hok⟩ := except_bind_ok hok
      unfold authenticate at hok
      rw [ht] at hok
      simp only [Bool.false_eq_true, if_false, Bind.bind, Except.bind] at hok
      obtain ⟨app_claims, happ, hok⟩ := except_bind_ok hok
      obtain ⟨appver, happver, hok⟩ := except_bind_ok hok
      obtain ⟨app_id, happid, hok⟩ := except_bind_ok hok
      obtain ⟨tidv0, happtid, hok⟩ := except_bind_ok hok
      cases hsub : sat.subject_token with
      | none =>
        rw [hsub] at hok
        by_cases hrst : rst = true
        · rw [hrst] at hok
          simp at hok
        · rw [Bool.not_eq_true] at hrst
          rw [hrst] at hok
          simp only [Bool.false_eq_true, if_false] at hok
          by_cases hrth : rth = true
          · rw [hrth] at hok
            simp only [if_true, pure, Except.pure] at hok
            injection hok with hok
            subst hok
            refine ⟨by intro s hcontra; simp at hcontra, ?_⟩
            intro _
            rw [hrth]
            exact ⟨rfl, rfl⟩
          · rw [Bool.not_eq_true] at hrth
            rw [hrth] at hok
            simp only [Bool.false_eq_true, if_false, pure, Except.pure] at hok
            injection hok with hok
            subst hok
            refine ⟨by intro s hcontra; simp at hcontra, ?_⟩
            intro _
            rw [hrth]
            exact ⟨rfl, rfl⟩
      | some subject_token =>
        rw [hsub] at hok
        simp only [Bind.bind, Except.bind] at hok
        obtain ⟨subject_claims, hsubj, hok⟩ := except_bind_ok hok
        obtain ⟨subver, hsubver, hok⟩ := except_bind_ok hok
        obtain ⟨subappid, hsubappid, hok⟩ := except_bind_ok hok
        obtain ⟨subtid, hsubtid, hok⟩ := except_bind_ok hok
        obtain ⟨uscope, hscope, hok⟩ := except_bind_ok hok
        simp only [pure, Except.pure] at hok
        injection hok with hok
        subst hok
        constructor
        · intro s _ hs
          simp only at hs
          subst hs
          cases hv : validate_claim_value subject_claims "tid" (some s)
              "subject tokens must belong to the subject\x27s tenant" with
          | error m => rw [hv] at hsubtid; simp [Except.mapError] at hsubtid
          | ok v =>
            obtain ⟨hl, hp⟩ := validate_claim_value_ok subject_claims "tid" s _ v hv
            exact ⟨v, hl, hp⟩
        · intro hcontra
          simp at hcontra

theorem c1_amended_tenant_object_id_witness :
    (∀ s, c1ctx.original_subject_token.isSome = true →
      c1ctx.tenant_object_id = some s →
      ∃ v, lookupClaim c1ctx.claims "tid" = some v ∧ pyStr v = s) ∧
    (c1ctx.original_subject_token = none →
      c1ctx.claims = [] ∧
      c1ctx.tenant_object_id = (if true then some "attacker-tenant" else none)) :=
  c1_amended_tenant_object_id c1cfg c1env (some c1header) (some "attacker-tenant")
    false true c1ctx rfl

/-! ## Claim C8: the per-authority MSAL client cache -/

theorem get_msal_app_cached (t : String) (st : MsalState) (app : Nat)
    (h : lookupApp st.apps (authorityOf t) = some app) :
    get_msal_app t st = (app, st) := by
  unfold get_msal_app
  rw [h]

theorem lookupApp_mem (l : List (String × Nat)) (k : String) (v : Nat)
    (h : lookupApp l k = some v) : (k, v) ∈ l := by
  induction l with
  | nil => cases h
  | cons p rest ih =>
    obtain ⟨pk, pv⟩ := p
    by_cases hk : pk = k
    · subst hk
      simp only [lookupApp, if_pos rfl] at h
      injection h with h
      subst h
      exact List.mem_cons_self _ _
    · simp only [lookupApp, if_neg hk] at h
      exact List.mem_cons_of_mem _ (ih h)

theorem lookupApp_inj (st : MsalState) (hinv : MsalInv st) (k1 k2 : String)
    (v1 v2 : Nat) (h1 : lookupApp st.apps k1 = some v1)
    (h2 : lookupApp st.apps k2 = some v2) (hk : k1 ≠ k2) : v1 ≠ v2 := by
  intro he
  subst he
  have m1 := lookupApp_mem _ _ _ h1
  have m2 := lookupApp_mem _ _ _ h2
  have heq := List.inj_on_of_nodup_map hinv.2 m1 m2 rfl
  injection heq with heqk _
  exact hk heqk

theorem msal_inv_step (t : String) (st : MsalState) (hinv : MsalInv st) :
    MsalInv (get_msal_app t st).2 := by
  unfold get_msal_app
  cases hl : lookupApp st.apps (authorityOf t) with
  | some app => exact hinv
  | none =>
    refine ⟨?_, ?_⟩
    · intro p hp
      simp only [List.mem_cons] at hp
      rcases hp with rfl | hp
      · exact Nat.lt_succ_self _
      · exact Nat.lt_succ_of_lt (hinv.1 p hp)
    · simp only [List.map_cons, List.nodup_cons]
      refine ⟨?_, hinv.2⟩
      intro hmem
      rw [List.mem_map] at hmem
      obtain ⟨p, hp, hv⟩ := hmem
      have := hinv.1 p hp
      omega

theorem lookupApp_msal_mono (t k : String) (st : MsalState) (v : Nat)
    (h : lookupApp st.apps k = some v) :
    lookupApp (get_msal_app t st).2.apps k = some v := by
  unfold get_msal_app
  cases hl : lookupApp st.apps (authorityOf t) with
  | some app => exact h
  | none =>
    have hne : authorityOf t ≠ k := by
      intro he
      rw [he] at hl
      rw [hl] at h
      cases h
    simp only [lookupApp, if_neg hne]
    exact h

theorem run_msal_inv (ts : List String) (st : MsalState) (hinv : MsalInv st) :
    MsalInv (run_msal_calls ts st).2 := by
  induction ts generalizing st with
  | nil => exact hinv
  | cons t ts ih => exact ih _ (msal_inv_step t st hinv)

theorem run_msal_mono (ts : List String) (st : MsalState) (k : String) (v : Nat)
    (h : lookupApp st.apps k = some v) :
    lookupApp (run_msal_calls ts st).2.apps k = some v := by
  induction ts generalizing st with
  | nil => exact h
  | cons t ts ih => exact ih _ (lookupApp_msal_mono t k st v h)

theorem get_msal_app_result_lookup (t : String) (st : MsalState) :
    lookupApp (get_msal_app t st).2.apps (authorityOf t) =
      some (get_msal_app t st).1 := by
  unfold get_msal_app
  cases hl : lookupApp st.apps (authorityOf t) with
  | some app => exact hl
  | none => simp [lookupApp]

theorem run_msal_length (ts : List String) (st : MsalState) :
    (run_msal_calls ts st).1.length = ts.length := by
  induction ts generalizing st with
  | nil => rfl
  | cons t ts ih => simp [run_msal_calls, ih]

theorem run_msal_result_lookup (ts : List String) (st : MsalState)
    (i : Nat) (hi : i < ts.length) (hi2 : i < (run_msal_calls ts st).1.length) :
    lookupApp (run_msal_calls ts st).2.apps (authorityOf (ts.get ⟨i, hi⟩)) =
      some ((run_msal_calls ts st).1.get ⟨i, hi2⟩) := by
  induction ts generalizing st i with
  | nil => cases hi
  | cons t ts ih =>
    cases i with
    | zero =>
      exact run_msal_mono ts _ _ _ (get_msal_app_result_lookup t st)
    | succ j =>
      exact ih (get_msal_app t st).2 j (Nat.lt_of_succ_lt_succ hi)
        (by
          have := hi2
          simp only [run_msal_calls, List.length_cons] at this
          omega)

theorem authorityOf_inj (a b : String) (h : authorityOf a = authorityOf b) :
    a = b := by
  unfold authorityOf at h
  have hd : (AAD_INSTANCE_URL ++ "/" ++ a).data = (AAD_INSTANCE_URL ++ "/" ++ b).data := by
    rw [h]
  simp only [string_data_append] at hd
  have hd2 := List.append_cancel_left hd
  cases a
  cases b
  simp only at hd2
  rw [hd2]

theorem run_msal_nextApp (ts : List String) (st : MsalState) :
    (run_msal_calls ts st).2.nextApp = st.nextApp + (newAuthorityKeys ts st).card := by
  induction ts generalizing st with
  | nil => simp [run_msal_calls, newAuthorityKeys]
  | cons t ts ih =>
    unfold run_msal_calls
    cases hl : lookupApp st.apps (authorityOf t) with
    | some app =>
      rw [get_msal_app_cached t st app hl]
      dsimp only
      rw [ih st]
      congr 1
      unfold newAuthorityKeys
      simp only [List.map_cons, List.toFinset_cons]
      rw [Finset.filter_insert, if_neg (by simp [hl])]
    | none =>
      have hstep : get_msal_app t st =
          (st.nextApp,
           { apps := (authorityOf t, st.nextApp) :: st.apps,
             nextApp := st.nextApp + 1 }) := by
        unfold get_msal_app
        rw [hl]
      rw [hstep]
      dsimp only
      rw [ih]
      have hkeys : newAuthorityKeys ts
          { apps := (authorityOf t, st.nextApp) :: st.apps,
            nextApp := st.nextApp + 1 } =
          (newAuthorityKeys ts st).erase (authorityOf t) := by
        unfold newAuthorityKeys
        ext x
        simp only [Finset.mem_filter, Finset.mem_erase, lookupApp]
        constructor
        · rintro ⟨hx, hnone⟩
          by_cases hxk : authorityOf t = x
          · rw [if_pos hxk] at hnone
            cases hnone
          · rw [if_neg hxk] at hnone
            exact ⟨fun he => hxk he.symm, hx, hnone⟩
        · rintro ⟨hne, hx, hnone⟩
          refine ⟨hx, ?_⟩
          rw [if_neg (fun he => hne he.symm)]
          exact hnone
      rw [hkeys]
      have hcard : (newAuthorityKeys (t :: ts) st).card =
          ((newAuthorityKeys ts st).erase (authorityOf t)).card + 1 := by
        unfold newAuthorityKeys
        simp only [List.map_cons, List.toFinset_cons]
        rw [Finset.filter_insert, if_pos hl]
        have hins : insert (authorityOf t)
            (Finset.filter (fun k => lookupApp st.apps k = none)
              (ts.map authorityOf).toFinset) =
            insert (authorityOf t)
              ((Finset.filter (fun k => lookupApp st.apps k = none)
                (ts.map authorityOf).toFinset).erase (authorityOf t)) := by
          ext x
          simp only [Finset.mem_insert, Finset.mem_erase]
          constructor
          · rintro (rfl | hx)
            · exact Or.inl rfl
            · by_cases hxk : x = authorityOf t
              · exact Or.inl hxk
              · exact Or.inr ⟨hxk, hx⟩
          · rintro (rfl | ⟨-, hx⟩)
            · exact Or.inl rfl
            · exact Or.inr hx
        rw [hins, Finset.card_insert_of_not_mem (Finset.not_mem_erase _ _)]
      rw [hcard]
      dsimp only
      omega

/-- Claim C8: against any well-formed cache state, `_get_msal_app` returns
the cached instance when the authority is present, any sequence of calls
returns the same instance for equal tenants and distinct instances for
distinct tenants, and the number of clients constructed is exactly the
number of distinct authority keys in the trace that were not already
cached (the sequential interleaving of whole calls is the faithful model:
the method has no await point, so each call runs atomically on the event
loop). -/
theorem c8_msal_client_cache (st : MsalState) (ts : List String) (rs : List Nat)
    (st' : MsalState) (hinv : MsalInv st)
    (hrun : run_msal_calls ts st = (rs, st')) :
    (∀ t app, lookupApp st.apps (authorityOf t) = some app →
      get_msal_app t st = (app, st)) ∧
    rs.length = ts.length ∧
    (∀ i j (hi : i < ts.length) (hj : j < ts.length)
        (hi2 : i < rs.length) (hj2 : j < rs.length),
      (ts.get ⟨i, hi⟩ = ts.get ⟨j, hj⟩ → rs.get ⟨i, hi2⟩ = rs.get ⟨j, hj2⟩) ∧
      (ts.get ⟨i, hi⟩ ≠ ts.get ⟨j, hj⟩ → rs.get ⟨i, hi2⟩ ≠ rs.get ⟨j, hj2⟩)) ∧
    st'.nextApp = st.nextApp + (newAuthorityKeys ts st).card := by
  have hrs : rs = (run_msal_calls ts st).1 := by rw [hrun]
  have hst : st' = (run_msal_calls ts st).2 := by rw [hrun]
  subst hrs
  subst hst
  refine ⟨fun t app h => get_msal_app_cached t st app h,
    run_msal_length ts st, ?_, run_msal_nextApp ts st⟩
  intro i j hi hj hi2 hj2
  have li := run_msal_result_lookup ts st i hi hi2
  have lj := run_msal_result_lookup ts st j hj hj2
  constructor
  · intro heq
    rw [heq] at li
    exact Option.some.inj (li.symm.trans lj)
  · intro hne
    exact lookupApp_inj _ (run_msal_inv ts st hinv) _ _ _ _ li lj
      (fun he => hne (authorityOf_inj _ _ he))

theorem c8_msal_client_cache_witness :
    (∀ t app, lookupApp c8st0.apps (authorityOf t) = some app →
      get_msal_app t c8st0 = (app, c8st0)) ∧
    c8rs.length = c8ts.length ∧
    (∀ i j (hi : i < c8ts.length) (hj : j < c8ts.length)
        (hi2 : i < c8rs.length) (hj2 : j < c8rs.length),
      (c8ts.get ⟨i, hi⟩ = c8ts.get ⟨j, hj⟩ → c8rs.get ⟨i, hi2⟩ = c8rs.get ⟨j, hj2⟩) ∧
      (c8ts.get ⟨i, hi⟩ ≠ c8ts.get ⟨j, hj⟩ → c8rs.get ⟨i, hi2⟩ ≠ c8rs.get ⟨j, hj2⟩)) ∧
    c8st1.nextApp = c8st0.nextApp + (newAuthorityKeys c8ts c8st0).card :=
  c8_msal_client_cache c8st0 c8ts c8rs c8st1 (by unfold MsalInv; decide) rfl

end FabricAuth
